import Mathlib

/-
Verification of the rich-text formatter of mautrix-telegram
(src/mautrix_telegram/formatter.py) against its design specification.

The Python module converts between Matrix HTML markup and Telegram's
plain-text-plus-entity-list representation.  Offsets and lengths are
counted in UTF-16 code units: the code encodes text as utf-16-le bytes
and divides byte counts by two.

Shallow embedding notes:
* Text is `List Char` (Unicode scalar values, like a Python `str`).
* The utf-16-le byte string used by `_telegram_to_matrix` is modelled as a
  list of `CU` code units (2 bytes each).  Every byte offset the Python
  code ever produces is even (all offsets/lengths are doubled unit
  counts), so a byte slice `[a:b]` is exactly the unit slice
  `[a/2 : b/2]`; `byteSlice` below implements that.  Decoding a slice
  that splits a surrogate pair raises in Python; `decodeCU` returns
  `none` there and the `Option` propagates to the top-level wrapper,
  mirroring the catch-and-return-None wrappers in the source.
* The HTML tokenizer is Python's stdlib `html.parser.HTMLParser`, which is
  outside this repository; the parser state machine is therefore driven by
  a list of `PEvent` values (start tag with its attribute list and raw
  source text, data chunk, end tag), exactly the callbacks the source
  overrides.  Likewise `html.unescape` is stdlib; it enters the model as
  the `unesc` field of `PEnv`.  `html.escape` is simple and is embedded
  concretely (`escape`).
* The database / puppet lookups (`User`/`Puppet`) are external
  collaborators; they enter as the resolver function fields of `PEnv`
  (Matrix→Telegram direction) and `Resolver` (Telegram→Matrix direction),
  each returning what the source reads off the looked-up object.
-/

namespace Formatter

/-! ## UTF-16 code-unit accounting (the TEXT LEN EXPLANATION block) -/

/-- Number of UTF-16 code units of one codepoint: 2 outside the BMP, else 1.
This is `len(c.encode("utf-16-le")) / 2` for a single character. -/
def cuLen (c : Char) : Nat := if 0x10000 ≤ c.toNat then 2 else 1

/-- `int(len(s.encode("utf-16-le")) / 2)`: UTF-16 code-unit length of a string. -/
def u16len (s : List Char) : Nat := (s.map cuLen).sum

/-- One UTF-16 code unit (2 bytes) of the utf-16-le encoding.  An astral
codepoint `c` encodes as `[hi c, lo c]` (its surrogate pair), a BMP codepoint
as `[bmp c]`. -/
inductive CU
  | bmp (c : Char)
  | hi (c : Char)
  | lo (c : Char)
deriving DecidableEq

/-- `s.encode("utf-16-le")`, one `CU` per 2 bytes. -/
def encodeCU (s : List Char) : List CU :=
  (s.map (fun c => if 0x10000 ≤ c.toNat then [CU.hi c, CU.lo c] else [CU.bmp c])).flatten

/-- `bytes.decode("utf-16-le")` (strict): fails (`none`) on a lone or
mismatched surrogate, which in Python raises `UnicodeDecodeError`. -/
def decodeCU : List CU → Option (List Char)
  | [] => some []
  | CU.bmp c :: r => (decodeCU r).map (fun t => c :: t)
  | CU.hi c :: CU.lo d :: r => if c = d then (decodeCU r).map (fun t => c :: t) else none
  | CU.hi _ :: CU.bmp _ :: _ => none
  | CU.hi _ :: CU.hi _ :: _ => none
  | [CU.hi _] => none
  | CU.lo _ :: _ => none

/-- Python byte slice `b[a:b]` on a utf-16-le byte string, for the even byte
offsets the formatter uses, expressed on the unit list. -/
def byteSlice (tb : List CU) (a b : Nat) : List CU :=
  (tb.drop (a / 2)).take (b / 2 - a / 2)

/-! ## html.escape -/

/-- The apostrophe character (U+0027). -/
def apos : Char := Char.ofNat 39

/-- The double-quote character (U+0022). -/
def dquo : Char := Char.ofNat 34

/-- `html.escape` on one character (quote=True: also `"` and the apostrophe). -/
def escChar (c : Char) : List Char :=
  if c = '&' then ("&amp;").data
  else if c = '<' then ("&lt;").data
  else if c = '>' then ("&gt;").data
  else if c = dquo then ("&quot;").data
  else if c = apos then ("&#x27;").data
  else [c]

/-- `html.escape(s)`. -/
def escape (s : List Char) : List Char := (s.map escChar).flatten

/-! ## Telegram entity model -/

/-- The `telethon` `MessageEntity*` classes used by the formatter, as a closed
enumeration; `unknown` stands for any other entity class (the renderer's
final `else: skip_entity = True` branch). -/
inductive EntityType
  | bold | italic | code | pre | mention | mentionName | email
  | textUrl | url | botCommand | hashtag | unknown
deriving DecidableEq

/-- A Telegram formatting entity.  `offset`/`length` are in UTF-16 code
units as produced by Telegram (before the renderer doubles them into byte
offsets).  `language`, `url` and `user_id` are the kind-specific attributes
the source reads (defaulted for kinds that lack them). -/
structure Entity where
  etype : EntityType
  offset : Nat
  length : Nat
  language : List Char := []
  url : List Char := []
  user_id : Nat := 0
deriving DecidableEq

/-- The in-place `entity.offset *= 2; entity.length *= 2` mutation performed
by `_telegram_to_matrix` on each input entity. -/
def doubleEnt (e : Entity) : Entity :=
  { e with offset := 2 * e.offset, length := 2 * e.length }

/-! ## Telegram → Matrix rendering (`_telegram_to_matrix`) -/

/-- External identity lookups used by the renderer, each returning the mxid
of the matched user/puppet (`None` when the lookup fails). -/
structure Resolver where
  userByUsername : List Char → Option (List Char)
  puppetByUsername : List Char → Option (List Char)
  userByTgid : Nat → Option (List Char)
  puppetByTgid : Nat → Option (List Char)

/-- Loop state of `_telegram_to_matrix`: the `html` chunk list, the
`last_offset` cursor (byte offset into the utf-16-le buffer) and the entity
list as mutated so far (each processed entity has been doubled in place). -/
structure RState where
  htmlParts : List (List Char)
  lastOffset : Nat
  ents : List Entity
deriving DecidableEq

/-- `<a href='H'>T</a>`. -/
def htmlA (href txt : List Char) : List Char :=
  ("<a href=").data ++ [apos] ++ href ++ [apos, '>'] ++ txt ++ ("</a>").data

/-- `<font color='blue'>`. -/
def fontBlue : List Char :=
  ("<font color=").data ++ [apos] ++ ("blue").data ++ [apos, '>']

/-- `<pre><code class='language-L'>T</code></pre>`. -/
def preLang (lang txt : List Char) : List Char :=
  ("<pre><code class=").data ++ [apos] ++ ("language-").data ++ lang
    ++ [apos, '>'] ++ txt ++ ("</code></pre>").data

/-- Recognised URL schemes (`url.startswith(("https://", "http://", "ftp://",
"magnet://"))`). -/
def hasScheme (u : List Char) : Bool :=
  ("https://").data.isPrefixOf u || ("http://").data.isPrefixOf u
    || ("ftp://").data.isPrefixOf u || ("magnet://").data.isPrefixOf u

/-- Per-kind rendering of one entity whose bounds have been checked:
`some h` appends chunk `h`, `none` is `skip_entity = True`. -/
def renderKind (res : Resolver) (e : Entity) (entity_text : List Char) :
    Option (List Char) :=
  match e.etype with
  | EntityType.bold => some (("<strong>").data ++ entity_text ++ ("</strong>").data)
  | EntityType.italic => some (("<em>").data ++ entity_text ++ ("</em>").data)
  | EntityType.code => some (("<code>").data ++ entity_text ++ ("</code>").data)
  | EntityType.pre =>
      if e.language = [] then
        some (("<pre><code>").data ++ entity_text ++ ("</code></pre>").data)
      else
        some (preLang e.language entity_text)
  | EntityType.mention =>
      let username := entity_text.drop 1
      let mxid := match res.userByUsername username with
        | some m => some m
        | none => res.puppetByUsername username
      match mxid with
      | some m => some (htmlA (("https://matrix.to/#/").data ++ m) entity_text)
      | none => none
  | EntityType.mentionName =>
      let mxid := match res.userByTgid e.user_id with
        | some m => some m
        | none => res.puppetByTgid e.user_id
      match mxid with
      | some m => some (htmlA (("https://matrix.to/#/").data ++ m) entity_text)
      | none => none
  | EntityType.email =>
      some (htmlA (("mailto:").data ++ entity_text) entity_text)
  | EntityType.textUrl =>
      let u0 := escape e.url
      let u := if hasScheme u0 then u0 else ("http://").data ++ u0
      some (htmlA u entity_text)
  | EntityType.url =>
      let u := if hasScheme entity_text then entity_text else ("http://").data ++ entity_text
      some (htmlA u entity_text)
  | EntityType.botCommand => some (fontBlue ++ '!' :: entity_text.drop 1)
  | EntityType.hashtag => some (fontBlue ++ entity_text ++ ("</font>").data)
  | EntityType.unknown => none

/-- Body of the loop after the gap/overlap checks: slice and escape the
entity text, dispatch on the kind, advance `last_offset`. -/
def stepBody (res : Resolver) (tb : List CU) (st : RState) (e : Entity) :
    Option RState :=
  match decodeCU (byteSlice tb e.offset (e.offset + e.length)) with
  | none => none
  | some raw =>
    let entity_text := escape raw
    match renderKind res e entity_text with
    | some h => some { st with htmlParts := st.htmlParts ++ [h],
                               lastOffset := e.offset + e.length }
    | none => some { st with lastOffset := e.offset }

/-- One iteration of the `for entity in entities` loop of
`_telegram_to_matrix`: double the entity in place, emit the escaped gap
`[last_offset, offset)` when the offset is ahead of the cursor, skip the
entity entirely when it is behind the cursor. -/
def stepEntity (res : Resolver) (tb : List CU) (st : RState) (e0 : Entity) :
    Option RState :=
  let e := doubleEnt e0
  let st1 : RState := { st with ents := st.ents ++ [e] }
  if st1.lastOffset < e.offset then
    match decodeCU (byteSlice tb st1.lastOffset e.offset) with
    | none => none
    | some g => stepBody res tb { st1 with htmlParts := st1.htmlParts ++ [escape g] } e
  else if e.offset < st1.lastOffset then
    some st1
  else
    stepBody res tb st1 e

/-- The whole entity loop. -/
def renderEnts (res : Resolver) (tb : List CU) : RState → List Entity → Option RState
  | st, [] => some st
  | st, e :: rest =>
    match stepEntity res tb st e with
    | none => none
    | some st' => renderEnts res tb st' rest

/-- `_telegram_to_matrix(text, entities)` with the post-call entity values
made explicit: returns the joined html and the entity list as mutated by the
in-place doubling.  `none` models an exception escaping to the caller.  The
trailing chunk `text[last_offset:]` is appended *without* `escape`, exactly
as in the source. -/
def tgToMxFull (res : Resolver) (text : List Char) (entities : List Entity) :
    Option (List Char × List Entity) :=
  if entities = [] then some (text, entities)
  else
    let tb := encodeCU text
    match renderEnts res tb ⟨[], 0, []⟩ entities with
    | none => none
    | some st =>
      match decodeCU (tb.drop (st.lastOffset / 2)) with
      | none => none
      | some trail => some ((st.htmlParts ++ [trail]).flatten, st.ents)

/-- `telegram_to_matrix(text, entities)`: the html result, `none` when the
wrapped call raised (the source logs and returns `None`). -/
def telegram_to_matrix (res : Resolver) (text : List Char) (entities : List Entity) :
    Option (List Char) :=
  (tgToMxFull res text entities).map Prod.fst

/-! ## Matrix → Telegram parsing (`MatrixParser`) -/

/-- What the source reads off a resolved `User`/`Puppet` object in
`handle_starttag`: its `username` (possibly `None`) and its `tgid`. -/
structure Identity where
  username : Option (List Char)
  tgid : Nat
deriving DecidableEq

/-- A `_open_tags_meta` slot: the initial `0`, an `int` list counter, a
replacement/url string, or Python `None`. -/
inductive Meta
  | num (n : Nat)
  | str (s : List Char)
  | null
deriving DecidableEq

/-- Python truthiness of a meta value (`if url:`). -/
def Meta.truthy : Meta → Bool
  | Meta.num n => n ≠ 0
  | Meta.str s => s ≠ []
  | Meta.null => false

/-- Numeric value of a meta slot (`n = self._open_tags_meta[1]`); the source
only ever reads a slot that holds an `int` here. -/
def Meta.getNum : Meta → Nat
  | Meta.num n => n
  | _ => 0

/-- External context of the parser: the stdlib `html.unescape`, and the
mxid lookups `Puppet.get_by_mxid` / `User.get_by_mxid`. -/
structure PEnv where
  unesc : List Char → List Char
  puppetByMxid : List Char → Option Identity
  userByMxid : List Char → Option Identity

/-- `MatrixParser` instance state. -/
structure PState where
  text : List Char
  entities : List Entity
  building : List (List Char × Entity)
  openTags : List (List Char)
  openMeta : List Meta
  prevEndedLine : Bool
deriving DecidableEq

/-- The freshly-constructed parser. -/
def initP : PState :=
  { text := [], entities := [], building := [], openTags := [], openMeta := [],
    prevEndedLine := true }

/-- First-match association-list lookup (`dict` membership / indexing for the
`_building_entities` dict, whose keys are unique). -/
def alookup {α : Type} (k : List Char) : List (List Char × α) → Option α
  | [] => none
  | p :: rest => if p.1 = k then some p.2 else alookup k rest

/-- `dict(attrs)[k]`: with duplicate attribute names Python's `dict` keeps
the last value, hence the lookup on the reversed list. -/
def dictGet {α : Type} (k : List Char) (attrs : List (List Char × α)) : Option α :=
  alookup k attrs.reverse

/-- Tag-name and literal constants used in branch conditions. -/
def tagStrong : List Char := ['s', 't', 'r', 'o', 'n', 'g']

def tagB : List Char := ['b']

def tagEm : List Char := ['e', 'm']

def tagI : List Char := ['i']

def tagCode : List Char := ['c', 'o', 'd', 'e']

def tagPre : List Char := ['p', 'r', 'e']

def tagA : List Char := ['a']

def tagUl : List Char := ['u', 'l']

def tagOl : List Char := ['o', 'l']

def tagLi : List Char := ['l', 'i']

def attrHref : List Char := ['h', 'r', 'e', 'f']

def attrClass : List Char := ['c', 'l', 'a', 's', 's']

def litMailto : List Char := ['m', 'a', 'i', 'l', 't', 'o', ':']

/-- The literal part `https://matrix` of the mention regex (the following
`.` matches any non-newline character). -/
def litHttpsMatrix : List Char :=
  ['h', 't', 't', 'p', 's', ':', '/', '/', 'm', 'a', 't', 'r', 'i', 'x']

/-- The literal part `to/#/` of the mention regex. -/
def litToHash : List Char := ['t', 'o', '/', '#', '/']

/-- Anchored match of `https://matrix.to/#/(@.+)` at the head of `s`,
returning group 1: the `.` wildcards match any character but `\n`, and the
greedy `.+` runs to the next newline or the end of the string. -/
def matchAt (s : List Char) : Option (List Char) :=
  if litHttpsMatrix.isPrefixOf s then
    match s.drop litHttpsMatrix.length with
    | [] => none
    | c :: rest =>
      if c = '\n' then none
      else if litToHash.isPrefixOf rest then
        match rest.drop litToHash.length with
        | [] => none
        | c2 :: tail =>
          if c2 = '@' then
            let g := tail.takeWhile (fun ch => ch ≠ '\n')
            if g = [] then none else some ('@' :: g)
          else none
      else none
  else none

/-- `mention_regex.search(url)`: leftmost match of
`https://matrix.to/#/(@.+)`, returning group 1. -/
def regexSearch : List Char → Option (List Char)
  | [] => none
  | c :: rest =>
    match matchAt (c :: rest) with
    | some g => some g
    | none => regexSearch rest

/-- `Puppet.get_by_mxid(mxid)` falling back to `User.get_by_mxid(mxid)`. -/
def lookupUser (env : PEnv) (mxid : List Char) : Option Identity :=
  match env.puppetByMxid mxid with
  | some u => some u
  | none => env.userByMxid mxid

/-- Insert a fresh in-progress entity for `tag`
(`if entity_type and tag not in self._building_entities`). -/
def addEnt (st : PState) (tag : List Char) (e : Entity) : PState :=
  match alookup tag st.building with
  | some _ => st
  | none => { st with building := st.building ++ [(tag, e)] }

/-- Replace the head meta slot
(`self._open_tags_meta.popleft(); self._open_tags_meta.appendleft(url)`). -/
def setMeta (st : PState) (m : Meta) : PState :=
  { st with openMeta := m :: st.openMeta.tail }

/-- Set `language` on the in-progress `pre` entity
(`pre.language = attrs["class"][len("language-"):]`). -/
def setPreLanguage (st : PState) (cls : List Char) : PState :=
  { st with building := st.building.map (fun p =>
      if p.1 = tagPre then (p.1, { p.2 with language := cls.drop 9 }) else p) }

/-- `MatrixParser.handle_starttag`. -/
def handle_starttag (env : PEnv) (st : PState) (tag : List Char)
    (attrs : List (List Char × List Char)) (raw : List Char) : PState :=
  let st := { st with openTags := tag :: st.openTags,
                      openMeta := Meta.num 0 :: st.openMeta }
  let off := u16len st.text
  if tag = tagStrong ∨ tag = tagB then
    addEnt st tag { etype := EntityType.bold, offset := off, length := 0 }
  else if tag = tagEm ∨ tag = tagI then
    addEnt st tag { etype := EntityType.italic, offset := off, length := 0 }
  else if tag = tagCode then
    match alookup tagPre st.building with
    | some _ =>
      match dictGet attrClass attrs with
      | some cls => setPreLanguage st cls
      | none => st
    | none =>
      addEnt st tag { etype := EntityType.code, offset := off, length := 0 }
  else if tag = tagPre then
    addEnt st tag { etype := EntityType.pre, offset := off, length := 0, language := [] }
  else if tag = tagA then
    match dictGet attrHref attrs with
    | none => st
    | some url =>
      match regexSearch url with
      | some mxid =>
        match lookupUser env mxid with
        | none => st
        | some user =>
          match user.username with
          | some un =>
            setMeta (addEnt st tag
                { etype := EntityType.mention, offset := off, length := 0 })
              (Meta.str ('@' :: un))
          | none =>
            setMeta (addEnt st tag
                { etype := EntityType.mentionName, offset := off, length := 0,
                  user_id := user.tgid })
              (Meta.str url)
      | none =>
        if litMailto.isPrefixOf url then
          setMeta (addEnt st tag
              { etype := EntityType.email, offset := off, length := 0 })
            (Meta.str (url.drop 7))
        else if raw = url then
          setMeta (addEnt st tag
              { etype := EntityType.url, offset := off, length := 0 })
            (Meta.str url)
        else
          setMeta (addEnt st tag
              { etype := EntityType.textUrl, offset := off, length := 0, url := url })
            Meta.null
  else
    st

/-- `MatrixParser._list_depth`. -/
def listDepth (tags : List (List Char)) : Nat :=
  (tags.filter (fun t => t = tagOl || t = tagUl)).length

/-- `n` spaces. -/
def spaces (n : Nat) : List Char := List.replicate n ' '

/-- `c` is a newline. -/
def isNL (c : Char) : Bool := c = '\n'

/-- `s.strip("\n")`. -/
def stripNL (s : List Char) : List Char :=
  ((s.dropWhile isNL).reverse.dropWhile isNL).reverse

/-- `s.endswith("\n")`. -/
def endsNL (s : List Char) : Bool :=
  match s.getLast? with
  | some c => isNL c
  | none => false

/-- Common tail of `handle_data`: grow every in-progress entity by the
code-unit length of the newline-stripped emitted text and shift its offset
by `list_format_offset`, update `_previous_ended_line`, append the text. -/
def finishData (st : PState) (text : List Char) (lfo : Nat) : PState :=
  { st with
    building := st.building.map (fun p =>
      (p.1, { p.2 with length := p.2.length + u16len (stripNL text),
                       offset := p.2.offset + lfo })),
    prevEndedLine := endsNL text,
    text := st.text ++ text }

/-- `MatrixParser.handle_data`. -/
def handle_data (env : PEnv) (st : PState) (chunk : List Char) : PState :=
  let text0 := env.unesc chunk
  let previous_tag := st.openTags.headD []
  if previous_tag = tagA then
    let text1 := match st.openMeta.headD Meta.null with
      | Meta.str s => if s = [] then text0 else s
      | _ => text0
    finishData st text1 0
  else if 1 < st.openTags.length ∧ st.prevEndedLine = true ∧ previous_tag = tagLi then
    let list_type := st.openTags.getD 1 []
    let indent := spaces ((listDepth st.openTags - 1) * 4)
    let s := stripNL text0
    if s = [] then st
    else if list_type = tagUl then
      finishData st (indent ++ '*' :: ' ' :: s) (indent.length + 2)
    else if list_type = tagOl then
      let n := (st.openMeta.getD 1 Meta.null).getNum + 1
      let st := { st with openMeta := st.openMeta.set 1 (Meta.num n) }
      finishData st (indent ++ (toString n).data ++ '.' :: ' ' :: s) (indent.length + 3)
    else
      finishData st s 0
  else
    finishData st text0 0

/-- `MatrixParser.handle_endtag`. -/
def handle_endtag (st : PState) (tag : List Char) : PState :=
  let st := match st.openTags with
    | [] => st
    | _ :: ts => { st with openTags := ts, openMeta := st.openMeta.tail }
  let st := if (tag = tagUl ∨ tag = tagOl) ∧ endsNL st.text then
      { st with text := st.text.dropLast }
    else st
  match alookup tag st.building with
  | some e =>
    { st with building := st.building.filter (fun p => decide (p.1 ≠ tag)),
              entities := st.entities ++ [e] }
  | none => st

/-- A tokenizer callback: the three handlers the source overrides, with the
arguments the stdlib tokenizer passes them. -/
inductive PEvent
  | startE (tag : List Char) (attrs : List (List Char × List Char)) (raw : List Char)
  | dataE (chunk : List Char)
  | endE (tag : List Char)

/-- Dispatch one tokenizer callback. -/
def stepEvent (env : PEnv) (st : PState) : PEvent → PState
  | PEvent.startE t a r => handle_starttag env st t a r
  | PEvent.dataE c => handle_data env st c
  | PEvent.endE t => handle_endtag st t

/-- `parser.feed(html)` over an already-tokenized event stream. -/
def runParser (env : PEnv) (evs : List PEvent) : PState :=
  evs.foldl (stepEvent env) initP

/-- `matrix_to_telegram(html)`: the resulting plain text and entity list. -/
def matrix_to_telegram (env : PEnv) (evs : List PEvent) :
    List Char × List Entity :=
  let st := runParser env evs
  (st.text, st.entities)

/-! ## Concrete instantiations used by witnesses and counterexamples -/

/-- A renderer context in which no identity resolves. -/
def res0 : Resolver := ⟨fun _ => none, fun _ => none, fun _ => none, fun _ => none⟩

/-- A parser context with the identity `unescape` (correct for inputs with no
character references) in which no mxid resolves. -/
def env0 : PEnv := ⟨id, fun _ => none, fun _ => none⟩

/-- The matrix.to profile link used in the mention scenarios. -/
def hrefA : List Char := ("https://matrix.to/#/@alice:example.com").data

/-- A parser context mapping the profile link's mxid to a puppet with the
public handle `alice_tg`. -/
def envHandle : PEnv :=
  ⟨id,
   fun m => if m = ("@alice:example.com").data
     then some ⟨some (("alice_tg").data), 5⟩ else none,
   fun _ => none⟩

/-- A parser context mapping the profile link's mxid to a puppet with no
public handle and Telegram id 5. -/
def envNoHandle : PEnv :=
  ⟨id,
   fun m => if m = ("@alice:example.com").data
     then some ⟨none, 5⟩ else none,
   fun _ => none⟩

/-- The event stream of `<a href=HREF>VIS</a>` (RAW is the literal source
text of the start tag). -/
def anchorEvs (href vis raw : List Char) : List PEvent :=
  [PEvent.startE tagA [(attrHref, href)] raw, PEvent.dataE vis, PEvent.endE tagA]

/-- Renderer state after consuming Bold(0,5) of `HELLOworld` (offsets
doubled into byte space: cursor 10). -/
def rstHello : RState :=
  { htmlParts := [("<strong>HELLO</strong>").data], lastOffset := 10,
    ents := [{ etype := EntityType.bold, offset := 0, length := 10 }] }

/-- The utf-16-le buffer of `HELLOworld`. -/
def tbHello : List CU := encodeCU (("HELLOworld").data)

/-- The overlapping Italic(3,4) span of the overlap-drop scenario. -/
def entItalic34 : Entity := { etype := EntityType.italic, offset := 3, length := 4 }

/-- The initial renderer state. -/
def rst0 : RState := { htmlParts := [], lastOffset := 0, ents := [] }

/-- The utf-16-le buffer of `ab<cd`. -/
def tb4 : List CU := encodeCU (("ab<cd").data)

/-- A Mention-by-id span over units `[1,3)` whose user id 7 resolves to
nothing under `res0`. -/
def entMention12 : Entity :=
  { etype := EntityType.mentionName, offset := 1, length := 2, user_id := 7 }

/-- Parser state inside `<b><ul><li>` just before the first list-item data
chunk arrives. -/
def pst6 : PState :=
  { text := [], entities := [],
    building := [(tagB, { etype := EntityType.bold, offset := 0, length := 0 })],
    openTags := [tagLi, tagUl, tagB],
    openMeta := [Meta.num 0, Meta.num 0, Meta.num 0],
    prevEndedLine := true }

/-- Parser state inside `<b><ol><li>` with the ordered-list counter at 9,
just before the tenth list item's first data chunk arrives. -/
def pst10 : PState :=
  { text := [], entities := [],
    building := [(tagB, { etype := EntityType.bold, offset := 0, length := 0 })],
    openTags := [tagLi, tagOl, tagB],
    openMeta := [Meta.num 0, Meta.num 9, Meta.num 0],
    prevEndedLine := true }

/-- The event stream of `<b><ul><li>x</li></ul></b>`. -/
def evs7 : List PEvent :=
  [PEvent.startE tagB [] [], PEvent.startE tagUl [] [], PEvent.startE tagLi [] [],
   PEvent.dataE ['x'], PEvent.endE tagLi, PEvent.endE tagUl, PEvent.endE tagB]

/-! ## Helper lemmas -/

theorem u16len_nil : u16len [] = 0 := rfl

theorem u16len_cons (c : Char) (s : List Char) :
    u16len (c :: s) = cuLen c + u16len s := by
  simp [u16len]

theorem u16len_append (a b : List Char) :
    u16len (a ++ b) = u16len a + u16len b := by
  simp [u16len]

theorem u16len_ascii (p : List Char) (hp : ∀ c ∈ p, c.toNat < 128) :
    u16len p = p.length := by
  induction p with
  | nil => rfl
  | cons c t ih =>
    have hc : cuLen c = 1 := by
      have := hp c (List.mem_cons_self c t)
      simp [cuLen]
      omega
    simp [u16len_cons, hc, ih (fun d hd => hp d (List.mem_cons_of_mem c hd))]
    omega

theorem dropWhileNL_of_not_mem (s : List Char) (h : '\n' ∉ s) :
    s.dropWhile isNL = s := by
  cases s with
  | nil => rfl
  | cons c t =>
    have hc : c ≠ '\n' := fun hh => h (by simp [hh])
    simp [List.dropWhile, isNL, hc]

theorem stripNL_of_not_mem (s : List Char) (h : '\n' ∉ s) : stripNL s = s := by
  unfold stripNL
  rw [dropWhileNL_of_not_mem s h,
      dropWhileNL_of_not_mem s.reverse (by simpa using h), List.reverse_reverse]

/-! ## Claim C2 -/

/-- Claim C2 (code bug exhibit): on text `Hi<` with a single Bold span over
`Hi`, the trailing region `<` after the last span is emitted verbatim by
`_telegram_to_matrix`, not HTML-escaped: the output ends in a raw `<`
rather than the `&lt;` the spec's exactly-once escaping requires. -/
theorem C2_trailing_text_not_escaped :
    telegram_to_matrix res0 (("Hi<").data)
        [{ etype := EntityType.bold, offset := 0, length := 2 }]
      = some (("<strong>Hi</strong><").data)
    ∧ ("<strong>Hi</strong><").data ≠ ("<strong>Hi</strong>&lt;").data := by
  exact ⟨by decide, by decide⟩

/-! ## Claim C7 -/

/-- Claim C7 (code bug exhibit): parsing `<b><ul><li>x</li></ul></b>` yields
plain text `* x` (3 UTF-16 units) but a Bold span with offset 2 and
length 3, so `offset + length = 5 > 3` violates the span-bounds invariant:
`handle_data` adds the list prefix's length to the span's offset while also
growing its length by the full prefixed text. -/
theorem C7_span_bounds_violated :
    (matrix_to_telegram env0 evs7).1 = ("* x").data
    ∧ (matrix_to_telegram env0 evs7).2
        = [{ etype := EntityType.bold, offset := 2, length := 3 }]
    ∧ ¬(2 + 3 ≤ u16len (("* x").data)) := by
  exact ⟨by decide, by decide, by decide⟩

/-! ## Claim C6 -/

/-- Claim C6 counterexample: on `<b><ul><li>x</li></ul></b>` the open Bold
span's length grows by 3 — the unit length of the *prefixed* stripped text
`* x` — not by 1, the unit length of the unprefixed stripped text `x` that
the claim states, so the final span is `(2, 3)` and not `(2, 1)`; and on
the tenth ordered-list item the offset shift is the hardcoded 3 while the
inserted prefix `10. ` is 4 units long, so the offset clause fails too. -/
theorem C6_unprefixed_growth_fails :
    ((matrix_to_telegram env0 evs7).2
        = [{ etype := EntityType.bold, offset := 2, length := 3 }]
      ∧ ({ etype := EntityType.bold, offset := 2, length := 3 } : Entity)
          ≠ { etype := EntityType.bold, offset := 2, length := 1 })
    ∧ ((handle_data env0 pst10 ['x']).building
        = [(tagB, { etype := EntityType.bold, offset := 3, length := 5 })]
      ∧ (handle_data env0 pst10 ['x']).text = ("10. x").data
      ∧ u16len (("10. ").data) = 4
      ∧ (3 : Nat) ≠ 4) := by
  exact ⟨⟨by decide, by decide⟩, by decide, by decide, by decide, by decide⟩

/-! ## Claim C8 -/

/-- Claim C8 counterexample: after `<strong><b>`, the parser has *two* Bold
spans under construction at once — `_building_entities` is keyed by tag
name, not by span kind, so the nested same-kind tag `b` inside `strong`
does start a second Bold span. -/
theorem C8_two_bold_spans_in_flight :
    ((runParser env0 [PEvent.startE tagStrong [] [], PEvent.startE tagB [] []]).building.filter
        (fun p => decide (p.2.etype = EntityType.bold))).length = 2
    ∧ ¬(((runParser env0 [PEvent.startE tagStrong [] [], PEvent.startE tagB [] []]).building.filter
        (fun p => decide (p.2.etype = EntityType.bold))).length ≤ 1) := by
  exact ⟨by decide, by decide⟩

/-! ## Claim C10 -/

/-- Claim C10 counterexample: `_telegram_to_matrix` doubles each input
span's offset and length in place, so after rendering `abc` with Bold(1,1)
the span has become Bold(2,2), and a second call with that mutated span
list returns different markup (`ab<strong>c</strong>` instead of
`a<strong>b</strong>c`). -/
theorem C10_spans_mutated_in_place :
    tgToMxFull res0 (("abc").data)
        [{ etype := EntityType.bold, offset := 1, length := 1 }]
      = some ((("a<strong>b</strong>c").data),
              [{ etype := EntityType.bold, offset := 2, length := 2 }])
    ∧ tgToMxFull res0 (("abc").data)
        [{ etype := EntityType.bold, offset := 2, length := 2 }]
      = some ((("ab<strong>c</strong>").data),
              [{ etype := EntityType.bold, offset := 4, length := 4 }])
    ∧ ("a<strong>b</strong>c").data ≠ ("ab<strong>c</strong>").data
    ∧ ({ etype := EntityType.bold, offset := 2, length := 2 } : Entity)
        ≠ { etype := EntityType.bold, offset := 1, length := 1 } := by
  exact ⟨by decide, by decide, by decide, by decide⟩

/-! ## Claim C3 -/

/-- Claim C3: in `_telegram_to_matrix`, a span whose (doubled) offset is
strictly below the cursor `last_offset` is skipped entirely — the html
output and the cursor are unchanged; only the in-place doubling of the
entity is still performed. -/
theorem C3_overlapping_span_skipped (res : Resolver) (tb : List CU)
    (st : RState) (e : Entity) (h : 2 * e.offset < st.lastOffset) :
    stepEntity res tb st e = some { st with ents := st.ents ++ [doubleEnt e] } := by
  have h1 : ¬(st.lastOffset < (doubleEnt e).offset) := by
    simp only [doubleEnt]
    omega
  have h2 : (doubleEnt e).offset < st.lastOffset := by
    simp only [doubleEnt]
    omega
  simp [stepEntity, h1, h2]

/-- Witness for C3 at the spec's own example: on `HELLOworld` with spans
Bold(0,5) and Italic(3,4), the Italic span (offset 3 < cursor 5) renders
nothing and leaves the cursor alone. -/
theorem C3_overlapping_span_skipped_witness :
    2 * entItalic34.offset < rstHello.lastOffset
    ∧ stepEntity res0 tbHello rstHello entItalic34
        = some { rstHello with ents := rstHello.ents ++ [doubleEnt entItalic34] } :=
  ⟨by decide, C3_overlapping_span_skipped res0 tbHello rstHello entItalic34 (by decide)⟩

/-! ## Claim C4 -/

/-- Claim C4 counterexample: an unresolved Mention-by-id span in trailing
position has its text `<y` emitted by the after-loop flush, which does not
escape; the output is `x<y`, not the `x&lt;y` that emitting the slice as
plain *escaped* text would produce. -/
theorem C4_trailing_mention_text_unescaped :
    telegram_to_matrix res0 (("x<y").data) [entMention12] = some (("x<y").data)
    ∧ ("x<y").data ≠ ("x&lt;y").data := by
  exact ⟨by decide, by decide⟩

/-- Claim C4 (amended): a Mention-by-id span whose user id resolves to no
identity renders no markup element — the html gains only the escaped gap
text before the span, if any — and the cursor ends exactly at the span's
offset rather than advancing past its length, so later spans stay
anchored; the step succeeds. -/
theorem C4_unresolved_mention_renders_nothing (res : Resolver) (tb : List CU)
    (st : RState) (e : Entity) (g s : List Char)
    (het : e.etype = EntityType.mentionName)
    (h1 : res.userByTgid e.user_id = none)
    (h2 : res.puppetByTgid e.user_id = none)
    (hge : st.lastOffset ≤ 2 * e.offset)
    (hg : decodeCU (byteSlice tb st.lastOffset (2 * e.offset)) = some g)
    (hs : decodeCU (byteSlice tb (2 * e.offset) (2 * e.offset + 2 * e.length)) = some s) :
    stepEntity res tb st e
      = some { htmlParts := st.htmlParts
                 ++ (if st.lastOffset < 2 * e.offset then [escape g] else []),
               lastOffset := 2 * e.offset,
               ents := st.ents ++ [doubleEnt e] } := by
  have hde : (doubleEnt e).offset = 2 * e.offset := rfl
  have hdl : (doubleEnt e).length = 2 * e.length := rfl
  by_cases hlt : st.lastOffset < 2 * e.offset
  · simp [stepEntity, hde, hdl, hlt, hg, stepBody, hs, renderKind, het, h1, h2, doubleEnt]
  · have heq : 2 * e.offset = st.lastOffset := by omega
    simp [stepEntity, hde, hdl, hlt, stepBody, heq ▸ hs, renderKind, het, h1, h2,
          doubleEnt, heq]

/-- Witness for C4 at a concrete input: on buffer `ab<cd`, initial state and
unresolved mention span over units `[1,3)`, the step emits only the escaped
gap `a` and parks the cursor at byte offset 2. -/
theorem C4_unresolved_mention_renders_nothing_witness :
    res0.userByTgid entMention12.user_id = none
    ∧ stepEntity res0 tb4 rst0 entMention12
        = some { htmlParts := rst0.htmlParts
                   ++ (if rst0.lastOffset < 2 * entMention12.offset
                        then [escape ['a']] else []),
                 lastOffset := 2 * entMention12.offset,
                 ents := rst0.ents ++ [doubleEnt entMention12] } :=
  ⟨rfl, C4_unresolved_mention_renders_nothing res0 tb4 rst0 entMention12
    ['a'] (['b', '<']) rfl rfl rfl (by decide) (by decide) (by decide)⟩

/-! ## Claim C9 -/

/-- Claim C9: for text with no formatting — no tags (the tokenizer emits it
as a single data chunk), no `&` (so `html.unescape` is the identity on it) —
the round trip holds both ways: `matrix_to_telegram` returns the text
unchanged with no entities, and `telegram_to_matrix` with an empty entity
list returns the text unchanged, so each composition is the identity. -/
theorem C9_plain_text_roundtrip (env : PEnv) (res : Resolver) (t : List Char)
    (h1 : '<' ∉ t) (h2 : '&' ∉ t) (hu : env.unesc t = t) :
    matrix_to_telegram env [PEvent.dataE t] = (t, [])
    ∧ telegram_to_matrix res t [] = some t
    ∧ telegram_to_matrix res (matrix_to_telegram env [PEvent.dataE t]).1
        (matrix_to_telegram env [PEvent.dataE t]).2 = some t := by
  have hm : matrix_to_telegram env [PEvent.dataE t] = (t, []) := by
    simp [matrix_to_telegram, runParser, stepEvent, handle_data, initP, hu,
          finishData, tagA, tagLi]
  have ht : telegram_to_matrix res t [] = some t := by
    simp [telegram_to_matrix, tgToMxFull]
  exact ⟨hm, ht, by rw [hm]; exact ht⟩

/-- Witness for C9 on the plain text `hello world`. -/
theorem C9_plain_text_roundtrip_witness :
    matrix_to_telegram env0 [PEvent.dataE (("hello world").data)]
      = (("hello world").data, [])
    ∧ telegram_to_matrix res0 (("hello world").data) []
      = some (("hello world").data)
    ∧ telegram_to_matrix res0
        (matrix_to_telegram env0 [PEvent.dataE (("hello world").data)]).1
        (matrix_to_telegram env0 [PEvent.dataE (("hello world").data)]).2
      = some (("hello world").data) :=
  C9_plain_text_roundtrip env0 res0 (("hello world").data)
    (by decide) (by decide) rfl

/-! ## Claim C10 -/

theorem stepBody_ents (res : Resolver) (tb : List CU) (st : RState)
    (e : Entity) (st' : RState) (h : stepBody res tb st e = some st') :
    st'.ents = st.ents := by
  unfold stepBody at h
  dsimp only at h
  split at h
  · exact Option.noConfusion h
  · split at h
    · injection h with h
      rw [← h]
    · injection h with h
      rw [← h]

theorem stepEntity_ents (res : Resolver) (tb : List CU) (st : RState)
    (e : Entity) (st' : RState) (h : stepEntity res tb st e = some st') :
    st'.ents = st.ents ++ [doubleEnt e] := by
  unfold stepEntity at h
  dsimp only at h
  split at h
  · split at h
    · exact Option.noConfusion h
    · exact stepBody_ents _ _ _ _ _ h
  · split at h
    · injection h with h
      rw [← h]
    · exact stepBody_ents _ _ _ _ _ h

theorem renderEnts_ents (res : Resolver) (tb : List CU) (l : List Entity) :
    ∀ st st', renderEnts res tb st l = some st' →
      st'.ents = st.ents ++ l.map doubleEnt := by
  induction l with
  | nil =>
    intro st st' h
    injection h with h
    rw [← h]
    simp
  | cons e rest ih =>
    intro st st' h
    unfold renderEnts at h
    split at h
    · exact Option.noConfusion h
    · next st1 hstep =>
      rw [ih st1 st' h, stepEntity_ents _ _ _ _ _ hstep]
      simp

/-- Claim C10 (amended): `_telegram_to_matrix` is not pure in its span
list — on every successful call the spans come out mutated, each offset and
length doubled in place, so a second call on the same span objects sees the
doubled values and in general returns different markup. -/
theorem C10_processed_spans_doubled (res : Resolver) (text : List Char)
    (ents : List Entity) (out : List Char × List Entity)
    (h : tgToMxFull res text ents = some out) :
    out.2 = ents.map doubleEnt := by
  unfold tgToMxFull at h
  by_cases he : ents = []
  · subst he
    simp only [if_pos rfl] at h
    rw [← Option.some_inj.mp h]
    rfl
  · rw [if_neg he] at h
    dsimp only at h
    split at h
    · exact Option.noConfusion h
    · next st hrend =>
      split at h
      · exact Option.noConfusion h
      · injection h with h
        rw [← h]
        simpa using renderEnts_ents res (encodeCU text) ents ⟨[], 0, []⟩ st hrend

/-- Witness for C10: rendering `abc` with Bold(1,1) succeeds and the
post-call span list is the doubled Bold(2,2). -/
theorem C10_processed_spans_doubled_witness :
    ((("a<strong>b</strong>c").data,
      [{ etype := EntityType.bold, offset := 2, length := 2 }]) :
        List Char × List Entity).2
      = [({ etype := EntityType.bold, offset := 1, length := 1 } : Entity)].map doubleEnt :=
  C10_processed_spans_doubled res0 (("abc").data)
    [{ etype := EntityType.bold, offset := 1, length := 1 }] _ (by decide)

/-! ## Claim C1 -/

theorem u16len_astral_append (p : List Char) (g : Char)
    (hp : ∀ c ∈ p, c.toNat < 128) (hg : 0x10000 ≤ g.toNat) :
    u16len (p ++ [g]) = p.length + 2 := by
  rw [u16len_append, u16len_ascii p hp]
  simp [u16len, cuLen, hg]

/-- Claim C1: `handle_starttag` records the span offset as the UTF-16
code-unit length of the text so far (astral codepoints count 2, others 1):
for ASCII text `p`, then an astral character, then `<b>w</b>`, the Bold
span's offset is `p.length + 2` — not `p.length + 1` — and its length is
the unit length of the (newline-stripped) tag content. -/
theorem C1_offsets_in_utf16_units (env : PEnv) (p w raw : List Char) (g : Char)
    (hp : ∀ c ∈ p, c.toNat < 128) (hg : 0x10000 ≤ g.toNat)
    (hu1 : env.unesc (p ++ [g]) = p ++ [g]) (hu2 : env.unesc w = w) :
    (matrix_to_telegram env
        [PEvent.dataE (p ++ [g]), PEvent.startE tagB [] raw,
         PEvent.dataE w, PEvent.endE tagB]).2
      = [{ etype := EntityType.bold, offset := p.length + 2,
           length := u16len (stripNL w) }] := by
  have hoff := u16len_astral_append p g hp hg
  simp [matrix_to_telegram, runParser, stepEvent, handle_data, handle_starttag,
        handle_endtag, finishData, addEnt, alookup, initP, hu1, hu2, setMeta,
        tagB, tagA, tagLi, tagStrong, tagUl, tagOl, hoff]

/-- Witness for C1: `hi😀<b>bold</b>` produces a Bold span at offset 4
(2 ASCII units plus 2 units for U+1F600). -/
theorem C1_offsets_in_utf16_units_witness :
    (∀ c ∈ ("hi").data, c.toNat < 128)
    ∧ (matrix_to_telegram env0
        [PEvent.dataE ((("hi").data) ++ [Char.ofNat 0x1F600]),
         PEvent.startE tagB [] (("<b>").data),
         PEvent.dataE (("bold").data), PEvent.endE tagB]).2
      = [{ etype := EntityType.bold, offset := ("hi").data.length + 2,
           length := u16len (stripNL (("bold").data)) }] :=
  ⟨by decide,
   C1_offsets_in_utf16_units env0 (("hi").data) (("bold").data) (("<b>").data)
     (Char.ofNat 0x1F600) (by decide) (by decide) rfl rfl⟩

/-! ## Claim C6 (amended) -/

/-- Claim C6 (amended): when a data chunk is emitted with a list-item
prefix — bullet or ordered-list number plus indent — every span currently
under construction, whatever tag it belongs to, grows by the UTF-16-unit
length of the *prefixed* stripped text (prefix plus content, not the
unprefixed content the spec states), and its offset shifts by a hardcoded
amount: indent length + 2 for an unordered list and indent length + 3 for
an ordered list, which equals the inserted prefix's unit length only while
the ordered-list counter has a single digit. -/
theorem C6_list_prefix_growth (env : PEnv) (st : PState) (chunk s : List Char)
    (rest : List (List Char))
    (hPrev : st.prevEndedLine = true)
    (hs : stripNL (env.unesc chunk) = s) (hne : s ≠ []) :
    (st.openTags = tagLi :: tagUl :: rest →
      (handle_data env st chunk).building
        = st.building.map (fun p =>
            (p.1, { p.2 with
              length := p.2.length
                + u16len (stripNL
                    (spaces ((listDepth st.openTags - 1) * 4) ++ '*' :: ' ' :: s)),
              offset := p.2.offset + ((listDepth st.openTags - 1) * 4 + 2) })))
    ∧ (st.openTags = tagLi :: tagOl :: rest →
      (handle_data env st chunk).building
        = st.building.map (fun p =>
            (p.1, { p.2 with
              length := p.2.length
                + u16len (stripNL
                    (spaces ((listDepth st.openTags - 1) * 4)
                      ++ (toString ((st.openMeta.getD 1 Meta.null).getNum + 1)).data
                      ++ '.' :: ' ' :: s)),
              offset := p.2.offset + ((listDepth st.openTags - 1) * 4 + 3) }))) := by
  constructor
  · intro hTags
    have hlen : 1 < st.openTags.length := by
      rw [hTags]
      simp
    simp [handle_data, hTags, hPrev, hs, hne, hlen, finishData, tagA, tagLi,
          tagUl, spaces]
  · intro hTags
    have hlen : 1 < st.openTags.length := by
      rw [hTags]
      simp
    simp [handle_data, hTags, hPrev, hs, hne, hlen, finishData, tagA, tagLi,
          tagUl, tagOl, spaces]

/-- Witness for C6, one instance per list type: inside `<b><ul><li>` the
chunk `x` becomes `* x` (the open Bold span grows by 3 units, offset
shifted by 2); inside `<b><ol><li>` with the counter at 9 the chunk `x`
becomes `10. x` (the span grows by 5 units, offset shifted by 3). -/
theorem C6_list_prefix_growth_witness :
    (handle_data env0 pst6 ['x']).building
      = pst6.building.map (fun p =>
          (p.1, { p.2 with
            length := p.2.length
              + u16len (stripNL
                  (spaces ((listDepth pst6.openTags - 1) * 4) ++ '*' :: ' ' :: ['x'])),
            offset := p.2.offset + ((listDepth pst6.openTags - 1) * 4 + 2) }))
    ∧ (handle_data env0 pst10 ['x']).building
      = pst10.building.map (fun p =>
          (p.1, { p.2 with
            length := p.2.length
              + u16len (stripNL
                  (spaces ((listDepth pst10.openTags - 1) * 4)
                    ++ (toString ((pst10.openMeta.getD 1 Meta.null).getNum + 1)).data
                    ++ '.' :: ' ' :: ['x'])),
            offset := p.2.offset + ((listDepth pst10.openTags - 1) * 4 + 3) })) :=
  ⟨(C6_list_prefix_growth env0 pst6 ['x'] ['x'] [tagB] rfl rfl (by decide)).1 rfl,
   (C6_list_prefix_growth env0 pst10 ['x'] ['x'] [tagB] rfl rfl (by decide)).2 rfl⟩

/-! ## Claim C5 -/

theorem regexSearch_ne_nil (s m : List Char) (h : regexSearch s = some m) :
    s ≠ [] := by
  intro he
  subst he
  exact Option.noConfusion h

/-- Claim C5 (amended): a `matrix.to` profile-link anchor resolving to an
identity with a public handle yields a Mention-by-name span with the
visible text replaced by `@handle`; one resolving to an identity without a
handle yields a Mention-by-id span carrying the identity's Telegram id but
with the visible text replaced by the raw href (not left unchanged as the
spec states); one resolving to no identity yields no span and preserves the
literal visible text. -/
theorem C5_profile_link_cases (env : PEnv) (href vis raw mxid : List Char)
    (hre : regexSearch href = some mxid) (hu : env.unesc vis = vis) :
    (∀ idt un, lookupUser env mxid = some idt → idt.username = some un →
        '\n' ∉ un →
      matrix_to_telegram env (anchorEvs href vis raw)
        = ('@' :: un,
           [{ etype := EntityType.mention, offset := 0, length := 1 + u16len un }]))
    ∧ (∀ idt, lookupUser env mxid = some idt → idt.username = none →
        '\n' ∉ href →
      matrix_to_telegram env (anchorEvs href vis raw)
        = (href,
           [{ etype := EntityType.mentionName, offset := 0, length := u16len href,
              user_id := idt.tgid }]))
    ∧ (lookupUser env mxid = none →
      matrix_to_telegram env (anchorEvs href vis raw) = (vis, [])) := by
  have hne : href ≠ [] := regexSearch_ne_nil href mxid hre
  refine ⟨?_, ?_, ?_⟩
  · intro idt un hidt hun hnl
    have hstrip : stripNL ('@' :: un) = '@' :: un := by
      apply stripNL_of_not_mem
      intro hm
      rcases List.mem_cons.mp hm with h | h
      · exact absurd h (by decide)
      · exact hnl h
    have hca : cuLen '@' = 1 := by decide
    have hlen : u16len ('@' :: un) = 1 + u16len un := by
      rw [u16len_cons, hca]
    simp [matrix_to_telegram, runParser, stepEvent, anchorEvs, handle_starttag,
          handle_data, handle_endtag, dictGet, alookup, finishData, addEnt,
          setMeta, initP, hre, hidt, hun, hu, hstrip, hlen, u16len_nil, tagA,
          tagB, tagStrong, tagEm, tagI, tagCode, tagPre, tagUl, tagOl, tagLi,
          attrHref]
  · intro idt hidt hun hnl
    have hstrip : stripNL href = href := stripNL_of_not_mem href hnl
    simp [matrix_to_telegram, runParser, stepEvent, anchorEvs, handle_starttag,
          handle_data, handle_endtag, dictGet, alookup, finishData, addEnt,
          setMeta, initP, hre, hidt, hun, hu, hstrip, hne, u16len_nil, tagA,
          tagB, tagStrong, tagEm, tagI, tagCode, tagPre, tagUl, tagOl, tagLi,
          attrHref]
  · intro hidt
    simp [matrix_to_telegram, runParser, stepEvent, anchorEvs, handle_starttag,
          handle_data, handle_endtag, dictGet, alookup, finishData, addEnt,
          setMeta, initP, hre, hidt, hu, tagA, tagB,
          tagStrong, tagEm, tagI, tagCode, tagPre, tagUl, tagOl, tagLi, attrHref]

/-- Witness for C5 (the handle case): with `@alice:example.com` mapped to
handle `alice_tg`, the anchor over `Alice` yields text `@alice_tg` and one
Mention span of length 9. -/
theorem C5_profile_link_cases_witness :
    matrix_to_telegram envHandle (anchorEvs hrefA (("Alice").data) (("<a>").data))
      = ('@' :: ("alice_tg").data,
         [{ etype := EntityType.mention, offset := 0,
            length := 1 + u16len (("alice_tg").data) }]) :=
  (C5_profile_link_cases envHandle hrefA (("Alice").data) (("<a>").data)
      (("@alice:example.com").data) (by decide) rfl).1
    ⟨some (("alice_tg").data), 5⟩ (("alice_tg").data) (by decide) rfl (by decide)

/-- Claim C5 counterexample: with `@alice:example.com` mapped to an identity
*without* a public handle, the Mention-by-id conversion replaces the visible
text `Alice` by the raw href — the claim's "visible text unchanged" fails. -/
theorem C5_idmention_replaces_visible_text :
    (matrix_to_telegram envNoHandle
        (anchorEvs hrefA (("Alice").data) (("<a>").data))).1 = hrefA
    ∧ hrefA ≠ ("Alice").data := by
  exact ⟨by decide, by decide⟩

/-! ## Claim C8 (amended) -/

theorem alookup_none_not_mem {α : Type} (k : List Char)
    (l : List (List Char × α)) (h : alookup k l = none) :
    k ∉ l.map Prod.fst := by
  induction l with
  | nil => simp
  | cons p t ih =>
    unfold alookup at h
    split at h
    · exact Option.noConfusion h
    · next hne =>
      simp only [List.map_cons, List.mem_cons]
      rintro (hk | hk)
      · exact hne hk.symm
      · exact (ih h) hk

theorem keys_addEnt (st : PState) (tag : List Char) (e : Entity)
    (h : (st.building.map Prod.fst).Nodup) :
    ((addEnt st tag e).building.map Prod.fst).Nodup := by
  unfold addEnt
  split
  · exact h
  · next hl =>
    simp only [List.map_append, List.map_cons, List.map_nil]
    rw [List.nodup_append]
    refine ⟨h, List.nodup_singleton tag, ?_⟩
    intro a ha hb
    rw [List.mem_singleton.mp hb] at ha
    exact alookup_none_not_mem tag st.building hl ha

theorem keys_map_pair {α : Type} (l : List (List Char × α))
    (f : List Char × α → α) :
    (l.map (fun p => (p.1, f p))).map Prod.fst = l.map Prod.fst := by
  induction l with
  | nil => rfl
  | cons p t ih => simp [ih]

theorem keys_ite_pre {α : Type} (l : List (List Char × α))
    (u : List Char × α → α) :
    (l.map (fun p => if p.1 = tagPre then (p.1, u p) else p)).map Prod.fst
      = l.map Prod.fst := by
  induction l with
  | nil => rfl
  | cons p t ih =>
    by_cases hp : p.1 = tagPre
    · simp [hp, ih]
    · simp [hp, ih]

theorem starttag_keys_nodup (env : PEnv) (st : PState) (tag : List Char)
    (attrs : List (List Char × List Char)) (raw : List Char)
    (h : (st.building.map Prod.fst).Nodup) :
    ((handle_starttag env st tag attrs raw).building.map Prod.fst).Nodup := by
  unfold handle_starttag
  dsimp only
  repeat' split
  all_goals first
    | exact h
    | exact keys_addEnt _ _ _ h
    | (simp only [setPreLanguage]
       rw [keys_ite_pre]
       exact h)

theorem data_keys_nodup (env : PEnv) (st : PState) (chunk : List Char)
    (h : (st.building.map Prod.fst).Nodup) :
    ((handle_data env st chunk).building.map Prod.fst).Nodup := by
  unfold handle_data
  dsimp only
  repeat' split
  all_goals first
    | exact h
    | (simp only [finishData]
       rw [keys_map_pair]
       exact h)

theorem endtag_keys_nodup (st : PState) (tag : List Char)
    (h : (st.building.map Prod.fst).Nodup) :
    ((handle_endtag st tag).building.map Prod.fst).Nodup := by
  unfold handle_endtag
  dsimp only
  repeat' split
  all_goals first
    | exact h
    | exact List.Nodup.sublist
        (List.Sublist.map Prod.fst (List.filter_sublist _)) h

theorem stepEvent_keys_nodup (env : PEnv) (st : PState) (ev : PEvent)
    (h : (st.building.map Prod.fst).Nodup) :
    ((stepEvent env st ev).building.map Prod.fst).Nodup := by
  cases ev with
  | startE t a r => exact starttag_keys_nodup env st t a r h
  | dataE c => exact data_keys_nodup env st c h
  | endE t => exact endtag_keys_nodup st t h

theorem foldl_keys_nodup (env : PEnv) (evs : List PEvent) :
    ∀ st, (st.building.map Prod.fst).Nodup →
      ((evs.foldl (stepEvent env) st).building.map Prod.fst).Nodup := by
  induction evs with
  | nil =>
    intro st h
    simpa using h
  | cons e rest ih =>
    intro st h
    rw [List.foldl_cons]
    exact ih _ (stepEvent_keys_nodup env st e h)

/-- Claim C8 (amended): at every moment of a parse, the in-progress span
table has at most one entry per *tag name* (its keys are pairwise
distinct): an identically named nested tag starts no second span, though
a same-kind tag with a different name (e.g. `b` inside `strong`) does. -/
theorem C8_at_most_one_span_per_tag (env : PEnv) (evs : List PEvent) :
    ((runParser env evs).building.map Prod.fst).Nodup :=
  foldl_keys_nodup env evs initP (by simp [initP])

end Formatter
